import Mathlib

/-!
Verification of the habit-tracker statistics engine.

Shallow embedding of the statistics engine of the habit-tracker service
(`app/utils.py` and the aggregation in `app/main.py`), together with
theorems settling the specification's claims about it.

Modelling conventions:

* A calendar date is an `Int`: the number of days since a fixed epoch.
  `date.today()` in the Python source reads the process-wide clock; every
  embedded function therefore takes an explicit `today : Int` argument
  standing for the value that clock read returns during the call.
* The database session is a `DB` value: the list of habit rows and the
  list of habit-completion rows.  An ORM query
  `db.query(...).filter(...).first()/.count()/.all()` becomes
  `List.find?` / `List.length ∘ List.filter` / `List.filter` on it.
* SQL `ORDER BY completed_date DESC` is `List.insertionSort (· ≥ ·)`
  applied to the projected dates (only the dates are selected, so any
  stable order among equal dates is the same list).
* Python `float` arithmetic is modelled by `Rat`; all values the claims
  mention are small enough that the two agree exactly.
-/

/-- A row of the `habits` table (`app/models.py`, class `Habit`).
`created_at` is the date part of the creation timestamp, i.e. what
`habit.created_at.date()` yields in `app/utils.py`. -/
structure Habit where
  id : Nat
  name : String
  description : Option String
  frequency : String
  created_at : Int
  owner_id : Nat
  deriving Repr, DecidableEq

/-- A row of the `habit_completions` table (`app/models.py`,
class `HabitCompletion`). -/
structure HabitCompletion where
  id : Nat
  habit_id : Nat
  completed_date : Int
  notes : Option String
  rating : Option Nat
  deriving Repr, DecidableEq

/-- The database contents the statistics engine reads. -/
structure DB where
  habits : List Habit
  completions : List HabitCompletion
  deriving Repr, DecidableEq

/-- The lookup `db.query(models.Habit).filter(models.Habit.id == habit_id).first()`. -/
def findHabit (db : DB) (habit_id : Nat) : Option Habit :=
  db.habits.find? (fun h => h.id == habit_id)

/-- The count `db.query(models.HabitCompletion).filter(habit_id == habit_id).count()`
in `calculate_completion_rate`. -/
def countCompletions (habit_id : Nat) (db : DB) : Nat :=
  (db.completions.filter (fun c => c.habit_id == habit_id)).length

/-- The quantity `days_existed = (date.today() - habit.created_at.date()).days + 1`
(`app/utils.py`, line 15). -/
def daysExisted (created_at today : Int) : Int :=
  (today - created_at) + 1

/-- The function `calculate_completion_rate(habit_id, db)` from `app/utils.py`:
return `0.0` when the habit is not found, otherwise
`(completions_count / days_existed) * 100 if days_existed > 0 else 0.0`. -/
def calculate_completion_rate (habit_id : Nat) (db : DB) (today : Int) : Rat :=
  match findHabit db habit_id with
  | none => 0
  | some habit =>
    let days_existed := daysExisted habit.created_at today
    if days_existed > 0 then
      ((countCompletions habit_id db : Rat) / (days_existed : Rat)) * 100
    else 0

/-- The dates of the completions of one habit, in the order the rows sit
in the table (the projection the streak query selects). -/
def completionDates (habit_id : Nat) (db : DB) : List Int :=
  (db.completions.filter (fun c => c.habit_id == habit_id)).map
    (fun c => c.completed_date)

/-- The streak query's result: the completion dates of the habit sorted
descending (`order_by(completed_date.desc())`). -/
def sortedDatesDesc (habit_id : Nat) (db : DB) : List Int :=
  List.insertionSort (· ≥ ·) (completionDates habit_id db)

/-- The `for completion in completions` loop of `calculate_current_streak`
(`app/utils.py`, lines 39-46): `streak` and `current_date` are the loop
state, and the walk stops at the first date that is neither the cursor
nor the cursor minus one day. -/
def streakLoop (streak : Nat) (current_date : Int) : List Int → Nat
  | [] => streak
  | comp_date :: rest =>
    if comp_date = current_date ∨ comp_date = current_date - 1 then
      streakLoop (streak + 1) comp_date rest
    else streak

/-- The function `calculate_current_streak(habit_id, db)` from `app/utils.py`:
initialise `streak = 0`, `current_date = date.today()` and run the walk
over the descending-sorted completion dates. -/
def calculate_current_streak (habit_id : Nat) (db : DB) (today : Int) : Nat :=
  streakLoop 0 today (sortedDatesDesc habit_id db)

/-- The floor of a rational, written with integer floor division so that
it evaluates by kernel reduction. -/
def ratFloor (x : Rat) : Int :=
  Int.fdiv x.num (x.den : Int)

/-- Python's `round` ties-to-even on a rational, used by
`round(completion_rate, 2)` in `app/main.py`. -/
def roundHalfEven (x : Rat) : Int :=
  let n := ratFloor x
  if x - n < 1 / 2 then n
  else if x - n > 1 / 2 then n + 1
  else if n % 2 = 0 then n else n + 1

/-- The rounding `round(x, 2)` from `app/main.py`. -/
def round2 (x : Rat) : Rat :=
  (roundHalfEven (x * 100) : Rat) / 100

/-- The fields of `schemas.HabitTodayResponse` the claims are about,
as built by `get_today_habits` in `app/main.py`. -/
structure HabitTodayResponse where
  id : Nat
  completions : List HabitCompletion
  completion_rate : Rat
  current_streak : Nat
  completed_today : Bool
  deriving Repr, DecidableEq

/-- The body of the `for habit in habits` loop of `get_today_habits`
(`app/main.py`, lines 88-114): look up the (first) completion of the
habit dated today, compute both statistics, and assemble the response,
whose completion list holds exactly that record when it exists. -/
def aggregateTodayHabit (habit : Habit) (db : DB) (today : Int) :
    HabitTodayResponse :=
  let today_completion := db.completions.find?
    (fun c => c.habit_id == habit.id && c.completed_date == today)
  { id := habit.id
    completions := match today_completion with
      | some c => [c]
      | none => []
    completion_rate := round2 (calculate_completion_rate habit.id db today)
    current_streak := calculate_current_streak habit.id db today
    completed_today := today_completion.isSome }

/-- The endpoint `GET /habits/today` (`get_today_habits` in `app/main.py`): the
per-habit aggregation applied to every habit owned by the current user. -/
def get_today_habits (user_id : Nat) (db : DB) (today : Int) :
    List HabitTodayResponse :=
  (db.habits.filter (fun h => h.owner_id == user_id)).map
    (fun h => aggregateTodayHabit h db today)

/-- The labels of the columns selected by the query in
`get_weekly_completions` (`app/utils.py`): the day-of-week extraction is
labelled `date_of_week` (note the typo) and the count `count`. -/
def weeklySelectedLabels : List String :=
  ["date_of_week", "count"]

/-- Resolution of a string passed to `group_by` (and of the row attribute
access) against the labels of the selected columns: the string must match
one of them. -/
def resolveLabelReference (labels : List String) (ref : String) : Option String :=
  labels.find? (fun l => l == ref)

/-- The grouping `get_weekly_completions` asks for, had its label
reference resolved: completions of the habit dated within the last
4 weeks (`completed_date >= today - 28`), grouped by day of week
(`extract('dow', ...)`, modelled as `completed_date % 7`), with the count
per non-empty bucket. -/
def weeklyHistogram (habit_id : Nat) (db : DB) (today : Int) :
    List (Int × Nat) :=
  let window := db.completions.filter
    (fun c => c.habit_id == habit_id && decide (today - 28 ≤ c.completed_date))
  (List.range 7).filterMap (fun d =>
    let n := (window.filter (fun c => c.completed_date % 7 == (d : Int))).length
    if n = 0 then none else some ((d : Int), n))

/-- The function `get_weekly_completions(habit_id, db)` from `app/utils.py`: the query
selects `extract('dow', completed_date)` under the label `date_of_week`,
but both `group_by("day_of_week")` and the row access `comp.day_of_week`
refer to `day_of_week`, which resolves against no selected label, so the
call raises instead of producing the histogram. -/
def get_weekly_completions (habit_id : Nat) (db : DB) (today : Int) :
    Except String (List (Int × Nat)) :=
  match resolveLabelReference weeklySelectedLabels "day_of_week" with
  | none => Except.error "cannot resolve label reference day_of_week"
  | some _ => Except.ok (weeklyHistogram habit_id db today)

/-- The walk's accumulator only shifts the result: running the loop with
initial count `s` yields the count from `0` plus `s`. -/
theorem streakLoop_add (s : ℕ) (c : Int) (l : List Int) :
    streakLoop s c l = streakLoop 0 c l + s := by
  induction l generalizing s c with
  | nil => simp [streakLoop]
  | cons d rest ih =>
    by_cases h : d = c ∨ d = c - 1
    · simp only [streakLoop, if_pos h]
      rw [ih (s + 1) d, ih (0 + 1) d]
      omega
    · simp [streakLoop, h]

/-- C1: `calculate_current_streak` sorts the completion dates in descending
order and walks them with a cursor initialised to today, incrementing the
streak and moving the cursor whenever the date equals the cursor or the
cursor minus one day and stopping at the first date that does neither; for
completions dated today, today-1, today-2 and today-5 it returns
exactly 3. -/
theorem current_streak_sorts_walks_and_example :
    (∀ (habit_id : ℕ) (db : DB) (today : Int),
      calculate_current_streak habit_id db today =
        streakLoop 0 today
          (List.insertionSort (· ≥ ·) (completionDates habit_id db))) ∧
    (∀ today : Int,
      calculate_current_streak 1
        ⟨[⟨1, "run", none, "daily", today - 10, 1⟩],
         [⟨1, 1, today - 2, none, none⟩, ⟨2, 1, today, none, none⟩,
          ⟨3, 1, today - 5, none, none⟩, ⟨4, 1, today - 1, none, none⟩]⟩
        today = 3) := by
  refine ⟨fun habit_id db today => rfl, fun today => ?_⟩
  have c1 : ¬((today - 5 : Int) ≥ today - 1) := by omega
  have c2 : (today : Int) ≥ today - 1 := by omega
  have c3 : ¬((today - 2 : Int) ≥ today) := by omega
  have c4 : ¬((today - 2 : Int) ≥ today - 1) := by omega
  have c5 : (today - 2 : Int) ≥ today - 5 := by omega
  have w1 : (today : Int) = today ∨ today = today - 1 := by omega
  have w2 : (today - 1 : Int) = today ∨ today - 1 = today - 1 := by omega
  have w3 : (today - 2 : Int) = today - 1 ∨ today - 2 = today - 1 - 1 := by omega
  have w4 : ¬((today - 5 : Int) = today - 2 ∨ today - 5 = today - 2 - 1) := by
    omega
  show streakLoop 0 today
    (List.insertionSort (fun a b : Int => a ≥ b)
      [today - 2, today, today - 5, today - 1]) = 3
  simp only [List.insertionSort, List.orderedInsert,
    if_pos c2, if_neg c1, if_neg c3, if_neg c4, if_pos c5]
  simp only [streakLoop, if_pos w1, if_pos w2, if_pos w3, if_neg w4]
  simp

/-- C3 fails on the code: with the uniqueness invariant bypassed, two
completions both dated today DO both count — the second duplicate matches
the `d == cursor` branch, so the streak is 2 with the duplicate against 1
without it. -/
theorem duplicate_today_extends_streak_counterexample :
    calculate_current_streak 1
      ⟨[⟨1, "run", none, "daily", 90, 1⟩],
       [⟨1, 1, 100, none, none⟩, ⟨2, 1, 100, none, none⟩]⟩ 100 = 2 ∧
    calculate_current_streak 1
      ⟨[⟨1, "run", none, "daily", 90, 1⟩],
       [⟨1, 1, 100, none, none⟩]⟩ 100 = 1 := by
  constructor <;> decide

/-- C3 amended: when the two most recent completion dates both equal
today, the duplicate today record DOES extend the streak — the result is
one more than the walk over the list with the duplicate removed, because
the duplicate satisfies the `d == cursor` branch of the walk. -/
theorem duplicate_today_extends_streak (habit_id : ℕ) (db : DB)
    (today : Int) (rest : List Int)
    (h : sortedDatesDesc habit_id db = today :: today :: rest) :
    calculate_current_streak habit_id db today =
      streakLoop 0 today (today :: rest) + 1 := by
  unfold calculate_current_streak
  rw [h]
  have hc : today = today ∨ today = today - 1 := Or.inl rfl
  simp only [streakLoop, if_pos hc]
  rw [streakLoop_add, streakLoop_add (0 + 1)]
  simp only [eq_self_iff_true, true_or, if_true]

/-- Witness for the amended C3: a habit whose completion dates sort to
`[100, 100]` has streak 2, one more than the walk over `[100]`. -/
theorem duplicate_today_extends_streak_witness :
    calculate_current_streak 1
      ⟨[⟨1, "run", none, "daily", 90, 1⟩],
       [⟨1, 1, 100, none, none⟩, ⟨2, 1, 100, none, none⟩]⟩ 100 =
      streakLoop 0 100 [100] + 1 :=
  duplicate_today_extends_streak 1
    ⟨[⟨1, "run", none, "daily", 90, 1⟩],
     [⟨1, 1, 100, none, none⟩, ⟨2, 1, 100, none, none⟩]⟩ 100 [] (by decide)

/-- C2: for a habit that exists (and whose creation date is not after
today — a creation timestamp never lies in the future of a later clock
reading), `calculate_completion_rate` returns
`(count of completions / days_existed) * 100` with
`days_existed = (today - created) + 1`; a habit created exactly 4 days ago
with 2 completions gets exactly 40, and the rate is not capped at 100 —
two same-day completions on a habit created today give a rate above
100. -/
theorem completion_rate_formula_and_examples :
    (∀ (habit_id : ℕ) (db : DB) (today : Int) (habit : Habit),
      findHabit db habit_id = some habit →
      habit.created_at ≤ today →
      calculate_completion_rate habit_id db today =
        ((countCompletions habit_id db : Rat) /
          ((daysExisted habit.created_at today : Int) : Rat)) * 100) ∧
    (∀ today : Int,
      calculate_completion_rate 1
        ⟨[⟨1, "run", none, "daily", today - 4, 1⟩],
         [⟨1, 1, today, none, none⟩, ⟨2, 1, today - 1, none, none⟩]⟩
        today = 40) ∧
    (∀ today : Int,
      100 < calculate_completion_rate 1
        ⟨[⟨1, "run", none, "daily", today, 1⟩],
         [⟨1, 1, today, none, none⟩, ⟨2, 1, today, none, none⟩]⟩
        today) := by
  have gen : ∀ (habit_id : ℕ) (db : DB) (today : Int) (habit : Habit),
      findHabit db habit_id = some habit →
      habit.created_at ≤ today →
      calculate_completion_rate habit_id db today =
        ((countCompletions habit_id db : Rat) /
          ((daysExisted habit.created_at today : Int) : Rat)) * 100 := by
    intro habit_id db today habit hfind hle
    have hd : daysExisted habit.created_at today > 0 := by
      unfold daysExisted; omega
    have hbody : calculate_completion_rate habit_id db today =
        (if daysExisted habit.created_at today > 0 then
          ((countCompletions habit_id db : Rat) /
            ((daysExisted habit.created_at today : Int) : Rat)) * 100
        else 0) := by
      unfold calculate_completion_rate
      rw [hfind]
    rw [hbody, if_pos hd]
  refine ⟨gen, fun today => ?_, fun today => ?_⟩
  · rw [gen 1
      ⟨[⟨1, "run", none, "daily", today - 4, 1⟩],
       [⟨1, 1, today, none, none⟩, ⟨2, 1, today - 1, none, none⟩]⟩
      today ⟨1, "run", none, "daily", today - 4, 1⟩ rfl
      (by show today - 4 ≤ today; omega)]
    rw [show daysExisted (today - 4) today = 5 from by unfold daysExisted; omega]
    show ((2 : ℕ) : Rat) / ((5 : Int) : Rat) * 100 = 40
    norm_num
  · rw [gen 1
      ⟨[⟨1, "run", none, "daily", today, 1⟩],
       [⟨1, 1, today, none, none⟩, ⟨2, 1, today, none, none⟩]⟩
      today ⟨1, "run", none, "daily", today, 1⟩ rfl
      (by show today ≤ today; omega)]
    rw [show daysExisted today today = 1 from by unfold daysExisted; omega]
    show 100 < ((2 : ℕ) : Rat) / ((1 : Int) : Rat) * 100
    norm_num

/-- Witness for C2: a habit created on day 6 queried on day 10 with two
completions satisfies the formula's hypotheses and gets the formula's
value. -/
theorem completion_rate_formula_witness :
    calculate_completion_rate 1
      ⟨[⟨1, "run", none, "daily", 6, 1⟩],
       [⟨1, 1, 10, none, none⟩, ⟨2, 1, 9, none, none⟩]⟩ 10 =
      ((countCompletions 1
        ⟨[⟨1, "run", none, "daily", 6, 1⟩],
         [⟨1, 1, 10, none, none⟩, ⟨2, 1, 9, none, none⟩]⟩ : Rat) /
        ((daysExisted 6 10 : Int) : Rat)) * 100 :=
  completion_rate_formula_and_examples.1 1
    ⟨[⟨1, "run", none, "daily", 6, 1⟩],
     [⟨1, 1, 10, none, none⟩, ⟨2, 1, 9, none, none⟩]⟩ 10
    ⟨1, "run", none, "daily", 6, 1⟩ rfl (by decide)

/-- C7: `days_existed` is at least 1 whenever the creation date is not
after today, and a habit created today has existed exactly 1 day. -/
theorem days_existed_at_least_one :
    (∀ created today : Int, created ≤ today →
      1 ≤ daysExisted created today) ∧
    (∀ today : Int, daysExisted today today = 1) := by
  constructor
  · intro created today h; unfold daysExisted; omega
  · intro today; unfold daysExisted; omega

/-- Witness for C7: a habit created on day 3 has existed at least 1 day on
day 7, and one created on day 9 has existed exactly 1 day on day 9. -/
theorem days_existed_at_least_one_witness :
    1 ≤ daysExisted 3 7 ∧ daysExisted 9 9 = 1 :=
  ⟨days_existed_at_least_one.1 3 7 (by decide),
   days_existed_at_least_one.2 9⟩

/-- C8: holding the habit table and today fixed, adding one more
completion of the habit on a date not already present never decreases
`calculate_completion_rate`. -/
theorem completion_rate_monotone (habit_id : ℕ) (db : DB) (today : Int)
    (c : HabitCompletion) (hc : c.habit_id = habit_id)
    (_hnew : c.completed_date ∉ completionDates habit_id db) :
    calculate_completion_rate habit_id db today ≤
      calculate_completion_rate habit_id ⟨db.habits, c :: db.completions⟩
        today := by
  have hcount : countCompletions habit_id ⟨db.habits, c :: db.completions⟩ =
      countCompletions habit_id db + 1 := by
    unfold countCompletions
    simp [List.filter_cons, hc]
  have hfind : findHabit ⟨db.habits, c :: db.completions⟩ habit_id =
      findHabit db habit_id := rfl
  unfold calculate_completion_rate
  rw [hfind]
  cases hf : findHabit db habit_id with
  | none => exact le_refl 0
  | some habit =>
    rw [hcount]
    show (if daysExisted habit.created_at today > 0 then
        ((countCompletions habit_id db : Rat) /
          ((daysExisted habit.created_at today : Int) : Rat)) * 100
      else 0) ≤
      (if daysExisted habit.created_at today > 0 then
        (((countCompletions habit_id db + 1 : ℕ) : Rat) /
          ((daysExisted habit.created_at today : Int) : Rat)) * 100
      else 0)
    by_cases hd : daysExisted habit.created_at today > 0
    · rw [if_pos hd, if_pos hd]
      have hdpos : (0 : Rat) < ((daysExisted habit.created_at today : Int) : Rat) := by
        exact_mod_cast hd
      have hle : ((countCompletions habit_id db : ℕ) : Rat) ≤
          ((countCompletions habit_id db + 1 : ℕ) : Rat) := by
        push_cast; linarith
      exact mul_le_mul_of_nonneg_right
        ((div_le_div_iff_of_pos_right hdpos).mpr hle) (by norm_num)
    · rw [if_neg hd, if_neg hd]

/-- Witness for C8: adding a completion dated 9 to a habit with one
completion dated 10 does not decrease the rate. -/
theorem completion_rate_monotone_witness :
    calculate_completion_rate 1
      ⟨[⟨1, "run", none, "daily", 6, 1⟩], [⟨1, 1, 10, none, none⟩]⟩ 10 ≤
    calculate_completion_rate 1
      ⟨[⟨1, "run", none, "daily", 6, 1⟩],
       [⟨2, 1, 9, none, none⟩, ⟨1, 1, 10, none, none⟩]⟩ 10 :=
  completion_rate_monotone 1
    ⟨[⟨1, "run", none, "daily", 6, 1⟩], [⟨1, 1, 10, none, none⟩]⟩ 10
    ⟨2, 1, 9, none, none⟩ rfl (by decide)

/-- C10: when the maximum completion date lies strictly after today, the
streak is 0: the descending walk sees that future date first, it matches
neither the cursor (today) nor the cursor minus one day, and the walk
stops immediately — even if the list also holds today or yesterday. -/
theorem future_dated_completion_zeroes_streak (habit_id : ℕ) (db : DB)
    (today m : Int) (hm : m ∈ completionDates habit_id db)
    (_hmax : ∀ d ∈ completionDates habit_id db, d ≤ m)
    (hfut : today < m) :
    calculate_current_streak habit_id db today = 0 := by
  unfold calculate_current_streak sortedDatesDesc
  have hs : List.Sorted (· ≥ ·)
      (List.insertionSort (· ≥ ·) (completionDates habit_id db)) :=
    List.sorted_insertionSort _ _
  have hmem : m ∈ List.insertionSort (· ≥ ·) (completionDates habit_id db) :=
    (List.mem_insertionSort _).mpr hm
  cases hL : List.insertionSort (· ≥ ·) (completionDates habit_id db) with
  | nil => rw [hL] at hmem; exact absurd hmem (List.not_mem_nil m)
  | cons a t =>
    rw [hL] at hmem hs
    have ham : a ≥ m := by
      rcases List.mem_cons.mp hmem with h | h
      · exact h ▸ le_refl m
      · exact List.rel_of_sorted_cons hs m h
    have hfar : ¬(a = today ∨ a = today - 1) := by omega
    simp only [streakLoop, if_neg hfar]

/-- Witness for C10: completions dated 105 and 100 with today = 100 (the
future date 105 is the maximum) give streak 0 although a completion dated
today is present. -/
theorem future_dated_completion_zeroes_streak_witness :
    calculate_current_streak 1
      ⟨[⟨1, "run", none, "daily", 90, 1⟩],
       [⟨1, 1, 105, none, none⟩, ⟨2, 1, 100, none, none⟩]⟩ 100 = 0 :=
  future_dated_completion_zeroes_streak 1
    ⟨[⟨1, "run", none, "daily", 90, 1⟩],
     [⟨1, 1, 105, none, none⟩, ⟨2, 1, 100, none, none⟩]⟩ 100 105
    (by decide) (by decide) (by decide)

/-- C5: in the today-view aggregation, `completed_today` is true exactly
when some completion of the habit is dated today, and in that case the
result's completion list is exactly the (first) such record; for a habit
with a single completion dated today with rating 4, the endpoint returns
one entry with `completed_today` true, that one completion, and a streak
of at least 1. -/
theorem today_view_completed_today (habit : Habit) (db : DB) (today : Int) :
    ((aggregateTodayHabit habit db today).completed_today = true ↔
      ∃ c ∈ db.completions, c.habit_id = habit.id ∧
        c.completed_date = today) ∧
    ((aggregateTodayHabit habit db today).completed_today = true →
      ∃ c, (aggregateTodayHabit habit db today).completions = [c] ∧
        c ∈ db.completions ∧ c.habit_id = habit.id ∧
        c.completed_date = today) ∧
    ((get_today_habits 1
        ⟨[⟨1, "run", none, "daily", 96, 1⟩],
         [⟨1, 1, 100, none, some 4⟩]⟩ 100).length = 1 ∧
      ∀ r ∈ get_today_habits 1
        ⟨[⟨1, "run", none, "daily", 96, 1⟩],
         [⟨1, 1, 100, none, some 4⟩]⟩ 100,
        r.completed_today = true ∧
        r.completions = [⟨1, 1, 100, none, some 4⟩] ∧
        1 ≤ r.current_streak) := by
  refine ⟨?_, ?_, by decide, by decide⟩
  · show (db.completions.find?
        (fun c => c.habit_id == habit.id && c.completed_date == today)).isSome =
        true ↔ _
    rw [List.find?_isSome]
    constructor
    · rintro ⟨c, hmem, hp⟩
      simp only [Bool.and_eq_true, beq_iff_eq] at hp
      exact ⟨c, hmem, hp.1, hp.2⟩
    · rintro ⟨c, hmem, h1, h2⟩
      exact ⟨c, hmem, by simp [h1, h2]⟩
  · intro h
    have hsome : (db.completions.find?
        (fun c => c.habit_id == habit.id && c.completed_date == today)).isSome =
        true := h
    cases hfind : db.completions.find?
        (fun c => c.habit_id == habit.id && c.completed_date == today) with
    | none => rw [hfind] at hsome; simp at hsome
    | some c =>
      have hp := List.find?_some hfind
      simp only [Bool.and_eq_true, beq_iff_eq] at hp
      refine ⟨c, ?_, List.mem_of_find?_eq_some hfind, hp.1, hp.2⟩
      show (match db.completions.find?
          (fun c => c.habit_id == habit.id && c.completed_date == today) with
        | some c => [c]
        | none => []) = [c]
      rw [hfind]

/-- Witness for C5: for the habit with the single completion dated 100
queried on day 100, `completed_today` is true. -/
theorem today_view_completed_today_witness :
    (aggregateTodayHabit ⟨1, "run", none, "daily", 96, 1⟩
      ⟨[⟨1, "run", none, "daily", 96, 1⟩],
       [⟨1, 1, 100, none, some 4⟩]⟩ 100).completed_today = true :=
  (today_view_completed_today ⟨1, "run", none, "daily", 96, 1⟩
    ⟨[⟨1, "run", none, "daily", 96, 1⟩],
     [⟨1, 1, 100, none, some 4⟩]⟩ 100).1.mpr
    ⟨⟨1, 1, 100, none, some 4⟩, by decide, rfl, rfl⟩

/-- C6: the two statistics are total functions with safe defaults — a
habit with zero completion records gets rate 0 and streak 0, and a habit
id that resolves to no habit row gets rate 0 (and, when every completion
row references an existing habit, streak 0 as well). -/
theorem statistics_safe_defaults :
    (∀ (habit_id : ℕ) (db : DB) (today : Int),
      countCompletions habit_id db = 0 →
      calculate_completion_rate habit_id db today = 0) ∧
    (∀ (habit_id : ℕ) (db : DB) (today : Int),
      completionDates habit_id db = [] →
      calculate_current_streak habit_id db today = 0) ∧
    (∀ (habit_id : ℕ) (db : DB) (today : Int),
      findHabit db habit_id = none →
      calculate_completion_rate habit_id db today = 0) ∧
    (∀ (habit_id : ℕ) (db : DB) (today : Int),
      (∀ c ∈ db.completions, ∃ h ∈ db.habits, c.habit_id = h.id) →
      findHabit db habit_id = none →
      calculate_current_streak habit_id db today = 0) := by
  have streak_empty : ∀ (habit_id : ℕ) (db : DB) (today : Int),
      completionDates habit_id db = [] →
      calculate_current_streak habit_id db today = 0 := by
    intro habit_id db today h
    unfold calculate_current_streak sortedDatesDesc
    rw [h]
    rfl
  refine ⟨?_, streak_empty, ?_, ?_⟩
  · intro habit_id db today h
    unfold calculate_completion_rate
    cases hf : findHabit db habit_id with
    | none => rfl
    | some habit =>
      show (if daysExisted habit.created_at today > 0 then
          ((countCompletions habit_id db : Rat) /
            ((daysExisted habit.created_at today : Int) : Rat)) * 100
        else 0) = 0
      rw [h]
      simp
  · intro habit_id db today h
    unfold calculate_completion_rate
    rw [h]
  · intro habit_id db today hfk hnone
    apply streak_empty
    unfold completionDates
    rw [List.map_eq_nil_iff, List.filter_eq_nil_iff]
    intro c hcmem
    obtain ⟨hb, hbmem, hceq⟩ := hfk c hcmem
    have hnotid := List.find?_eq_none.mp hnone hb hbmem
    simp only [beq_iff_eq] at hnotid ⊢
    rw [hceq]
    exact hnotid

/-- Witness for C6: on an empty database, both statistics return their
defaults for an unresolvable habit id. -/
theorem statistics_safe_defaults_witness :
    calculate_completion_rate 7 ⟨[], []⟩ 50 = 0 ∧
    calculate_current_streak 7 ⟨[], []⟩ 50 = 0 :=
  ⟨statistics_safe_defaults.1 7 ⟨[], []⟩ 50 rfl,
   statistics_safe_defaults.2.2.2 7 ⟨[], []⟩ 50 (by simp) rfl⟩

/-- C9 fails on the code as worded: the engine's result is not a function
of the habit record and completion list alone together with a
caller-supplied date, because `date.today()` is read inside the engine —
here, the same habit and the same single completion dated 100 give
streak 1 when the process clock reads day 100 and streak 0 when it reads
day 103. -/
theorem engine_reads_clock_counterexample :
    calculate_current_streak 1
      ⟨[⟨1, "run", none, "daily", 95, 1⟩], [⟨1, 1, 100, none, none⟩]⟩ 100 ≠
    calculate_current_streak 1
      ⟨[⟨1, "run", none, "daily", 95, 1⟩], [⟨1, 1, 100, none, none⟩]⟩ 103 := by
  decide

/-- C9 amended: every statistics-engine function is deterministic once
the clock date is fixed alongside the data — identical habit id, user id,
database contents and clock reading give identical results for the rate,
the streak, the weekly histogram and the today view. -/
theorem engine_deterministic_given_clock
    (habit_id₁ habit_id₂ user_id₁ user_id₂ : ℕ) (db₁ db₂ : DB)
    (today₁ today₂ : Int) (hh : habit_id₁ = habit_id₂)
    (hu : user_id₁ = user_id₂) (hdb : db₁ = db₂) (ht : today₁ = today₂) :
    calculate_completion_rate habit_id₁ db₁ today₁ =
      calculate_completion_rate habit_id₂ db₂ today₂ ∧
    calculate_current_streak habit_id₁ db₁ today₁ =
      calculate_current_streak habit_id₂ db₂ today₂ ∧
    get_weekly_completions habit_id₁ db₁ today₁ =
      get_weekly_completions habit_id₂ db₂ today₂ ∧
    get_today_habits user_id₁ db₁ today₁ =
      get_today_habits user_id₂ db₂ today₂ := by
  subst hh
  subst hu
  subst hdb
  subst ht
  exact ⟨rfl, rfl, rfl, rfl⟩

/-- Witness for the amended C9: identical concrete inputs give identical
streaks. -/
theorem engine_deterministic_given_clock_witness :
    calculate_current_streak 1 ⟨[], []⟩ 5 =
      calculate_current_streak 1 ⟨[], []⟩ 5 :=
  (engine_deterministic_given_clock 1 1 2 2 ⟨[], []⟩ ⟨[], []⟩ 5 5
    rfl rfl rfl rfl).2.1

/-- C4 is right about the intended histogram but the code cannot produce
it: `get_weekly_completions` labels the selected day-of-week column
`date_of_week` while `group_by` and the row attribute access use
`day_of_week`, a reference that resolves against no selected label, so
every call errors out instead of returning the histogram. -/
theorem weekly_completions_always_errors (habit_id : ℕ) (db : DB)
    (today : Int) :
    get_weekly_completions habit_id db today =
      Except.error "cannot resolve label reference day_of_week" := rfl
